import Mathlib

/-!
Verification development for the scan-orchestration and result-classification
engine of `PhoneGuardianPro.py`.

Captured process output is modelled as `List Char`.  Python `str.lower()` is
modelled on the ASCII range (all markers and remedy strings in the source are
ASCII).  Python regular expressions appearing in the source are alternations
of plain substrings, optionally guarded by word boundaries, so they are
embedded as explicit ordered alternative lists with the same leftmost,
first-alternative, non-overlapping match semantics as `re.search`/`re.findall`.
-/

/-- ASCII lowering of one character, as `str.lower()` acts on ASCII text. -/
def lowerChar (c : Char) : Char :=
  if 'A' ≤ c ∧ c ≤ 'Z' then Char.ofNat (c.toNat + 32) else c

/-- ASCII lowering of a text blob (`stdout.lower()` in `classify_stdout`). -/
def lowerStr (s : List Char) : List Char := s.map lowerChar

/-- Python regex word character (`\w`) over the ASCII range. -/
def isWordChar (c : Char) : Bool :=
  (('a' ≤ c) && (c ≤ 'z')) || (('A' ≤ c) && (c ≤ 'Z')) ||
  (('0' ≤ c) && (c ≤ '9')) || (c == '_')

/-- Word-character test on an optional character; out of range counts as non-word. -/
def isWordOpt : Option Char → Bool
  | some c => isWordChar c
  | none => false

/-- Python regex word boundary `\b` between a left and a right character. -/
def isBoundary (l r : Option Char) : Bool := isWordOpt l != isWordOpt r

/-- Python regex whitespace `\s` over the ASCII range (also used by `str.strip`). -/
def isSpaceChar (c : Char) : Bool :=
  c == ' ' || c == '\t' || c == '\n' || c == '\r' || c == '\x0b' || c == '\x0c'

/-- ASCII decimal digit (`\d`). -/
def isDigitChar (c : Char) : Bool := ('0' ≤ c) && (c ≤ '9')

/-- Python substring containment: `needle in s`. -/
def containsSub (needle : List Char) : List Char → Bool
  | [] => needle.isPrefixOf []
  | s@(_ :: rest) => needle.isPrefixOf s || containsSub needle rest

/-- Strip a literal prefix, returning the remainder on success. -/
def stripPrefixL : List Char → List Char → Option (List Char)
  | [], s => some s
  | _ :: _, [] => none
  | p :: ps, c :: cs => if p == c then stripPrefixL ps cs else none

/-- One alternative of a source regex: an optional word boundary, a literal,
and an optional trailing word boundary. -/
structure RxAlt where
  bbefore : Bool
  lit : List Char
  bafter : Bool

/-- A source regex as an ordered list of alternatives. -/
abbrev RxPat := List RxAlt

/-- Match one alternative at the current position.  `prev` is the character
just before the position (for the left word boundary). -/
def altMatchAt (prev : Option Char) (s : List Char) (a : RxAlt) : Option Nat :=
  if a.lit.isPrefixOf s
      && (!a.bbefore || isBoundary prev s.head?)
      && (!a.bafter || isBoundary a.lit.getLast? (s.drop a.lit.length).head?)
  then some a.lit.length else none

/-- Match a pattern at the current position, trying alternatives in order
(Python alternation semantics). -/
def patMatchAt (pat : RxPat) (prev : Option Char) (s : List Char) : Option Nat :=
  match pat with
  | [] => none
  | a :: rest =>
    match altMatchAt prev s a with
    | some n => some n
    | none => patMatchAt rest prev s

/-- Scan for a match anywhere (the `re.search` truth value). -/
def searchFrom (pat : RxPat) : Option Char → List Char → Bool
  | prev, [] => (patMatchAt pat prev []).isSome
  | prev, c :: rest => (patMatchAt pat prev (c :: rest)).isSome || searchFrom pat (some c) rest

/-- `re.search(pat, s) is not None`. -/
def searchPat (pat : RxPat) (s : List Char) : Bool := searchFrom pat none s

/-- Fuel-indexed scanner counting non-overlapping matches left to right,
resuming after each match end (`re.findall` count semantics).  Every source
pattern consumes at least one character, so fuel `s.length` is exact. -/
def countFrom (pat : RxPat) : Nat → Option Char → List Char → Nat
  | 0, _, _ => 0
  | _ + 1, _, [] => 0
  | fuel + 1, prev, c :: rest =>
    match patMatchAt pat prev (c :: rest) with
    | some n =>
      1 + countFrom pat fuel ((c :: rest).take (max n 1)).getLast? ((c :: rest).drop (max n 1))
    | none => countFrom pat fuel (some c) rest

/-- `len(re.findall(pat, s))`. -/
def countPat (pat : RxPat) (s : List Char) : Nat := countFrom pat s.length none s

/-- Source pattern `\bdomain|hostname|dns\b`. -/
def domainPat : RxPat :=
  [⟨true, "domain".toList, false⟩, ⟨false, "hostname".toList, false⟩, ⟨false, "dns".toList, true⟩]

/-- Source pattern `\burl|https?://\b` (greedy optional `s` expanded in try order). -/
def urlPat : RxPat :=
  [⟨true, "url".toList, false⟩, ⟨false, "https://".toList, true⟩, ⟨false, "http://".toList, true⟩]

/-- Source pattern `\bip(v4|v6)?\b` (greedy optional group expanded in try order). -/
def ipPat : RxPat :=
  [⟨true, "ipv4".toList, true⟩, ⟨true, "ipv6".toList, true⟩, ⟨true, "ip".toList, true⟩]

/-- Source pattern `\bfile|path\b`. -/
def filePat : RxPat :=
  [⟨true, "file".toList, false⟩, ⟨false, "path".toList, true⟩]

/-- Source pattern `\bpackage|pkg\b`. -/
def packagePat : RxPat :=
  [⟨true, "package".toList, false⟩, ⟨false, "pkg".toList, true⟩]

/-- Source pattern `\bprocess|ps\b`. -/
def processPat : RxPat :=
  [⟨true, "process".toList, false⟩, ⟨false, "ps".toList, true⟩]

/-- The `HIT_KEYWORDS` table of the source, in its iteration order. -/
def HIT_KEYWORDS : List (String × RxPat) :=
  [("domain", domainPat), ("url", urlPat), ("ip", ipPat),
   ("file", filePat), ("package", packagePat), ("process", processPat)]

/-- The HITS pattern of `classify_stdout`: `\bmatch|indicator hit|suspicious|ioc\b`. -/
def hitsPat : RxPat :=
  [⟨true, "match".toList, false⟩, ⟨false, "indicator hit".toList, false⟩,
   ⟨false, "suspicious".toList, false⟩, ⟨false, "ioc".toList, true⟩]

/-- Remedy string of the busy branch of `classify_stdout`. -/
def busyReason : String :=
  "ADB busy; run \x27adb kill-server\x27 and \x27adb start-server\x27."

/-- Remedy string of the unauthorized branch of `classify_stdout`. -/
def unauthorizedReason : String :=
  "Device unauthorized — unlock phone and accept RSA fingerprint."

/-- Remedy string of the offline branch of `classify_stdout`. -/
def offlineReason : String :=
  "Device offline — reconnect cable and ensure USB debugging is enabled."

/-- The decision chain of `classify_stdout`, applied to the already lowered blob `s`. -/
def classify_core (s : List Char) : String × String :=
  if containsSub "device is busy".toList s then ("FAILED", busyReason)
  else if containsSub "unauthorized".toList s then ("FAILED", unauthorizedReason)
  else if containsSub "device offline".toList s then ("FAILED", offlineReason)
  else if containsSub "permission denied".toList s || containsSub "not permitted".toList s
      || containsSub "root".toList s || containsSub "access denied".toList s
      || containsSub "no such table: history".toList s then
    ("SKIPPED", "not rooted/no permission")
  else if containsSub "error:".toList s || containsSub "traceback".toList s
      || containsSub "exception".toList s || containsSub "failed".toList s
      || containsSub "critical".toList s then
    ("FAILED", "unexpected tool error")
  else if searchPat hitsPat s then ("HITS", "")
  else ("CLEAN", "")

/-- `classify_stdout(stdout)`: lower the blob, then run the decision chain. -/
def classify_stdout (stdout : List Char) : String × String :=
  classify_core (lowerStr stdout)

/-- Attempt the pattern `loaded a total of\s*(\d+)\s*unique indicators` at the
current position of the (lowered) blob; return the captured number. -/
def defsMatchAt (s : List Char) : Option Nat :=
  match stripPrefixL "loaded a total of".toList s with
  | none => none
  | some r1 =>
    let r2 := r1.dropWhile isSpaceChar
    let ds := r2.takeWhile isDigitChar
    if ds.isEmpty then none
    else
      let r3 := (r2.dropWhile isDigitChar).dropWhile isSpaceChar
      match stripPrefixL "unique indicators".toList r3 with
      | none => none
      | some _ => some (ds.foldl (fun a c => a * 10 + (c.toNat - 48)) 0)

/-- Leftmost occurrence of the indicator-definition pattern (`re.search`). -/
def defsSearch : List Char → Option Nat
  | [] => defsMatchAt []
  | s@(_ :: rest) =>
    match defsMatchAt s with
    | some n => some n
    | none => defsSearch rest

/-- `parse_indicator_defs(stdout)`: the declared indicator count, or 0 when the
pattern does not occur (the source pattern is matched case-insensitively). -/
def parse_indicator_defs (stdout : List Char) : Nat :=
  (defsSearch (lowerStr stdout)).getD 0

/-- `_is_adb_busy(status, reason)` of the source: FAILED status whose
status-plus-reason text mentions busyness. -/
def is_adb_busy (status reason : String) : Bool :=
  let s := lowerStr (status.toList ++ ' ' :: reason.toList)
  (status == "FAILED") && (containsSub "busy".toList s || containsSub "device is busy".toList s)

/-- Alternation `(true|"true"|1)` after `\s*:\s*`, in Python try order; returns
the remainder on success. -/
def jsonValueTail (s : List Char) : Option (List Char) :=
  match (s.dropWhile isSpaceChar) with
  | ':' :: r2 =>
    let r3 := r2.dropWhile isSpaceChar
    match stripPrefixL "true".toList r3 with
    | some rest => some rest
    | none =>
      match stripPrefixL "\"true\"".toList r3 with
      | some rest => some rest
      | none =>
        match stripPrefixL "1".toList r3 with
        | some rest => some rest
        | none => none
  | _ => none

/-- The greedy try order of `(ed)?_?(indicator)?` in the structural JSON
marker pattern of `count_hits_in_files`. -/
def jsonMiddles : List (List Char) :=
  ["ed_indicator".toList, "ed_".toList, "edindicator".toList, "ed".toList,
   "_indicator".toList, "_".toList, "indicator".toList, []]

/-- Try each middle in order followed by the closing quote and the value tail. -/
def jsonTryMiddles : List (List Char) → List Char → Option (List Char)
  | [], _ => none
  | m :: ms, s =>
    match stripPrefixL m s with
    | some r1 =>
      match stripPrefixL "\"".toList r1 with
      | some r2 =>
        match jsonValueTail r2 with
        | some rest => some rest
        | none => jsonTryMiddles ms s
      | none => jsonTryMiddles ms s
    | none => jsonTryMiddles ms s

/-- Match the structural marker `"match(ed)?_?(indicator)?"\s*:\s*(true|"true"|1)`
at the current position of the lowered blob; returns the matched length. -/
def jsonMatchAt (s : List Char) : Option Nat :=
  match stripPrefixL "\"match".toList s with
  | none => none
  | some r =>
    match jsonTryMiddles jsonMiddles r with
    | some rest => some (s.length - rest.length)
    | none => none

/-- Fuel-indexed non-overlapping count of structural markers (`re.findall`). -/
def jsonCountFuel : Nat → List Char → Nat
  | 0, _ => 0
  | _ + 1, [] => 0
  | fuel + 1, s@(_ :: rest) =>
    match jsonMatchAt s with
    | some n => 1 + jsonCountFuel fuel (s.drop (max n 1))
    | none => jsonCountFuel fuel rest

/-- Count of structural `matched=true/1` markers in a JSON artifact's text
(the pattern is matched case-insensitively, hence the lowering). -/
def count_json_markers (text : List Char) : Nat :=
  jsonCountFuel text.length (lowerStr text)

/-- The `per_type` dictionary of `count_hits_in_files`: an insertion-ordered
association list from category name to count. -/
abbrev HitDict := List (String × Nat)

/-- `per_type.get(k, 0)`. -/
def dGet (d : HitDict) (k : String) : Nat := (d.lookup k).getD 0

/-- `per_type[k] = v`: replace an existing binding in place, else append. -/
def dSet : HitDict → String → Nat → HitDict
  | [], k, v => [(k, v)]
  | e :: rest, k, v => if e.1 == k then (k, v) :: rest else e :: dSet rest k v

/-- One artifact file, pre-dispatched by the `p.suffix.lower()` test of the
source: `.json` files and fallback files by their text as read (an unreadable
file read as empty text), `.csv`/`.tsv` files by their parsed rows including
the header (the csv dialect auto-detection of the source concerns only how
bytes are split into rows and fields, which this embedding takes as given;
an unreadable tabular file contributes nothing, i.e. behaves as `table []`). -/
inductive ArtifactFile where
  | json (text : List Char)
  | table (rows : List (List (List Char)))
  | other (text : List Char)

/-- The keyword loop shared by the `.json` and fallback branches:
for each category, count pattern matches and add when non-zero. -/
def addKeywordCounts (text : List Char) : List (String × RxPat) → HitDict → HitDict
  | [], d => d
  | (k, pat) :: rest, d =>
    let c := countPat pat (lowerStr text)
    addKeywordCounts text rest (if c ≠ 0 then dSet d k (dGet d k + c) else d)

/-- `" ".join(row)`. -/
def rowJoin : List (List Char) → List Char
  | [] => []
  | [f] => f
  | f :: fs => f ++ ' ' :: rowJoin fs

/-- The per-row keyword loop of the tabular branch: for each category,
add 1 when the joined row text matches. -/
def addRowSearch (rowText : List Char) : List (String × RxPat) → HitDict → HitDict
  | [], d => d
  | (k, pat) :: rest, d =>
    addRowSearch rowText rest
      (if searchPat pat (lowerStr rowText) then dSet d k (dGet d k + 1) else d)

/-- The data-row loop of the tabular branch: one total per row plus row-level
category searches. -/
def processRows : List (List (List Char)) → Nat → HitDict → Nat × HitDict
  | [], tot, d => (tot, d)
  | row :: rest, tot, d => processRows rest (tot + 1) (addRowSearch (rowJoin row) HIT_KEYWORDS d)

/-- Processing of one file inside the loop of `count_hits_in_files`. -/
def countFile (acc : Nat × HitDict) : ArtifactFile → Nat × HitDict
  | .json text => (acc.1 + count_json_markers text, addKeywordCounts text HIT_KEYWORDS acc.2)
  | .table [] => acc
  | .table (_header :: dataRows) => processRows dataRows acc.1 acc.2
  | .other text => (acc.1, addKeywordCounts text HIT_KEYWORDS acc.2)

/-- `count_hits_in_files(paths)`: fold the per-file processing over the files
in order, starting from total 0 and an empty dictionary. -/
def count_hits_in_files (files : List ArtifactFile) : Nat × HitDict :=
  files.foldl countFile (0, [])

/-- `ModuleOutcome` of the source (field order as in the dataclass). -/
structure ModuleOutcome where
  module : String
  status : String
  reason : String
  defs : Nat
  hits_total : Nat
  hit_types : HitDict

/-- The environment one module scan interacts with: the readiness-probe result
of `adb_ensure_ready` (whose boolean the scan flows discard), the captured
text of the first and of the possible second scanner invocation, and the
artifact files found by `new_files_since` afterwards. -/
structure ScanEnv where
  ready : Bool
  out1 : List Char
  out2 : List Char
  files : List ArtifactFile

/-- The bounded-attempt loop of `adb_ensure_ready`: `probe attempt` is the exit
code of the `adb shell echo ok` probe of that attempt (0 means responsive). -/
def ensureLoop (probe : Nat → Int) : Nat → Nat → Bool
  | 0, _ => false
  | n + 1, attempt => if probe attempt == 0 then true else ensureLoop probe n (attempt + 1)

/-- `adb_ensure_ready(max_attempts)`: false when the adb binary is missing,
otherwise true iff some attempt's shell probe exits 0. -/
def adb_ensure_ready (adbFound : Bool) (probe : Nat → Int) (max_attempts : Nat) : Bool :=
  if adbFound then ensureLoop probe max_attempts 1 else false

/-- The per-module body of `scan_module_by_module` (lines 722-736): invoke and
classify; if and only if `_is_adb_busy` holds for the first classification,
re-invoke once and re-classify; then aggregate hits over the new files.  The
second component counts scanner invocations.  The `adb_quick_reset()` /
`adb_ensure_ready()` calls in this body are external side effects whose
results the source discards, so they contribute no data here. -/
def scan_module_core (mod : String) (env : ScanEnv) : ModuleOutcome × Nat :=
  if is_adb_busy (classify_stdout env.out1).1 (classify_stdout env.out1).2 then
    (⟨mod, (classify_stdout env.out2).1, (classify_stdout env.out2).2,
      parse_indicator_defs env.out2,
      (count_hits_in_files env.files).1, (count_hits_in_files env.files).2⟩, 2)
  else
    (⟨mod, (classify_stdout env.out1).1, (classify_stdout env.out1).2,
      parse_indicator_defs env.out1,
      (count_hits_in_files env.files).1, (count_hits_in_files env.files).2⟩, 1)

/-- The body of `scan_all_modules` (lines 678-707): identical decision flow to
the per-module body with module name "ALL".  The `adb_ensure_ready()` call at
line 679 is made before the first invocation but its boolean result is
discarded by the source, which then invokes the scanner unconditionally. -/
def scan_all_modules_core (env : ScanEnv) : ModuleOutcome × Nat :=
  if is_adb_busy (classify_stdout env.out1).1 (classify_stdout env.out1).2 then
    (⟨"ALL", (classify_stdout env.out2).1, (classify_stdout env.out2).2,
      parse_indicator_defs env.out2,
      (count_hits_in_files env.files).1, (count_hits_in_files env.files).2⟩, 2)
  else
    (⟨"ALL", (classify_stdout env.out1).1, (classify_stdout env.out1).2,
      parse_indicator_defs env.out1,
      (count_hits_in_files env.files).1, (count_hits_in_files env.files).2⟩, 1)

/-- The five fixed property keys of `get_device_props`, in iteration order. -/
def PROP_KEYS : List String :=
  ["ro.product.manufacturer", "ro.product.model", "ro.build.version.release",
   "ro.build.version.sdk", "ro.build.fingerprint"]

/-- `str.strip()` over the ASCII whitespace set. -/
def pyStrip (s : List Char) : List Char :=
  ((s.dropWhile isSpaceChar).reverse.dropWhile isSpaceChar).reverse

/-- One assignment of the `get_device_props` loop:
`props[k] = (out or "").strip().splitlines()[0] if out else ""` guarded by
`rc == 0`.  When `rc == 0` and `out` is non-empty but all whitespace,
`strip()` yields the empty string, `splitlines()` yields `[]`, and the `[0]`
index raises `IndexError`, modelled as `Except.error`.  Line breaks for
`splitlines` are modelled over the ASCII range. -/
def prop_value (rc : Int) (out : List Char) : Except Unit (List Char) :=
  if rc == 0 then
    if out.isEmpty then Except.ok []
    else
      match pyStrip out with
      | [] => Except.error ()
      | c :: cs =>
        Except.ok ((c :: cs).takeWhile
          (fun ch => !(ch == '\n' || ch == '\r' || ch == '\x0b' || ch == '\x0c')))
  else Except.ok []

/-- The key loop of `get_device_props`: a raised `IndexError` aborts the loop
(and the surrounding run, which has no handler for it). -/
def props_loop (read : String → Int × List Char) : List String → Except Unit (List (String × List Char))
  | [] => Except.ok []
  | k :: ks =>
    match prop_value (read k).1 (read k).2 with
    | Except.error e => Except.error e
    | Except.ok v =>
      match props_loop read ks with
      | Except.error e => Except.error e
      | Except.ok rest => Except.ok ((k, v) :: rest)

/-- `get_device_props()`: all five keys map to the empty string when the adb
binary is missing; otherwise each key's value is produced by its own read,
with failed reads (`rc != 0`) leaving the initial empty string. -/
def get_device_props (adbFound : Bool) (read : String → Int × List Char) :
    Except Unit (List (String × List Char)) :=
  if adbFound then props_loop read PROP_KEYS
  else Except.ok (PROP_KEYS.map (fun k => (k, [])))

/-- Scenario C captured text of the specification. -/
def scenarioC : List Char :=
  "Loaded a total of 42 unique indicators\nNo matches found.".toList

/-- A Scenario D tabular artifact: a header row plus three single-field data
rows, one containing `suspicious.example.com`. -/
def scenarioD : List (List (List Char)) :=
  [["host".toList], ["suspicious.example.com".toList], ["alpha".toList], ["beta".toList]]

/-- A JSON artifact text containing a category keyword but no structural marker. -/
def jsonKeywordOnly : List Char := "domain: suspicious.example.com".toList

/-- A JSON artifact text containing exactly one structural matched marker. -/
def jsonMarkerOnly : List Char := "\"matched\": true".toList

/-- Environment whose first invocation reports a busy transport and whose
second invocation output is empty (hence classified CLEAN). -/
def envBusyClean : ScanEnv :=
  ⟨true, "Error: Device is busy. Try again.".toList, [], []⟩

/-- Environment whose readiness probe failed (adb binary missing, so
`adb_ensure_ready` returns false) and whose invocation output is empty. -/
def envProbeFail : ScanEnv :=
  ⟨adb_ensure_ready false (fun _ => 1) 2, [], [], []⟩

theorem classify_core_cases (s : List Char) :
    classify_core s = ("FAILED", busyReason)
    ∨ classify_core s = ("FAILED", unauthorizedReason)
    ∨ classify_core s = ("FAILED", offlineReason)
    ∨ classify_core s = ("SKIPPED", "not rooted/no permission")
    ∨ classify_core s = ("FAILED", "unexpected tool error")
    ∨ classify_core s = ("HITS", "")
    ∨ classify_core s = ("CLEAN", "") := by
  unfold classify_core
  split_ifs <;> simp

theorem is_adb_busy_classify (t : List Char) :
    is_adb_busy (classify_stdout t).1 (classify_stdout t).2 = true ↔
      ((classify_stdout t).1 = "FAILED" ∧ (classify_stdout t).2 = busyReason) := by
  have h := classify_core_cases (lowerStr t)
  simp only [classify_stdout]
  rcases h with h | h | h | h | h | h | h <;> rw [h] <;> decide

/-- C1: any captured text containing the busy-transport marker classifies as
FAILED with the reset-guidance reason regardless of other tokens, and any
text containing a permission-denial marker but no busy, unauthorized or
offline marker classifies as SKIPPED even when error tokens are present,
because the decision chain checks those markers in that order. -/
theorem c1_classifier_priority (t : List Char) :
    (containsSub "device is busy".toList (lowerStr t) = true →
      classify_stdout t = ("FAILED", busyReason)
      ∧ containsSub "kill-server".toList busyReason.toList = true
      ∧ containsSub "start-server".toList busyReason.toList = true)
    ∧ (containsSub "device is busy".toList (lowerStr t) = false →
       containsSub "unauthorized".toList (lowerStr t) = false →
       containsSub "device offline".toList (lowerStr t) = false →
       (containsSub "permission denied".toList (lowerStr t) = true
        ∨ containsSub "not permitted".toList (lowerStr t) = true
        ∨ containsSub "root".toList (lowerStr t) = true
        ∨ containsSub "access denied".toList (lowerStr t) = true
        ∨ containsSub "no such table: history".toList (lowerStr t) = true) →
       classify_stdout t = ("SKIPPED", "not rooted/no permission")) := by
  constructor
  · intro h
    refine ⟨?_, by decide, by decide⟩
    unfold classify_stdout classify_core
    rw [h]
    simp
  · intro h1 h2 h3 h4
    have h4b : (containsSub "permission denied".toList (lowerStr t)
        || containsSub "not permitted".toList (lowerStr t)
        || containsSub "root".toList (lowerStr t)
        || containsSub "access denied".toList (lowerStr t)
        || containsSub "no such table: history".toList (lowerStr t)) = true := by
      rcases h4 with h | h | h | h | h <;> rw [h] <;> simp
    unfold classify_stdout classify_core
    rw [h1, h2, h3, h4b]
    simp

theorem c1_witness :
    classify_stdout "Error: Device is busy. Try again.".toList = ("FAILED", busyReason)
    ∧ classify_stdout "error: permission denied for history db".toList =
        ("SKIPPED", "not rooted/no permission") :=
  ⟨((c1_classifier_priority "Error: Device is busy. Try again.".toList).1 (by decide)).1,
   (c1_classifier_priority "error: permission denied for history db".toList).2
     (by decide) (by decide) (by decide) (Or.inl (by decide))⟩

/-- C8: the classifier's status is always one of CLEAN, HITS, SKIPPED, FAILED,
and the reason is non-empty exactly for FAILED and SKIPPED. -/
theorem c8_status_reason_invariant (t : List Char) :
    ((classify_stdout t).1 = "CLEAN" ∨ (classify_stdout t).1 = "HITS"
      ∨ (classify_stdout t).1 = "SKIPPED" ∨ (classify_stdout t).1 = "FAILED")
    ∧ ((classify_stdout t).2 ≠ "" ↔
        ((classify_stdout t).1 = "FAILED" ∨ (classify_stdout t).1 = "SKIPPED")) := by
  have h := classify_core_cases (lowerStr t)
  simp only [classify_stdout]
  rcases h with h | h | h | h | h | h | h <;> rw [h] <;> decide

/-- C9: the empty captured text is classified CLEAN with empty reason. -/
theorem c9_empty_clean : classify_stdout "".toList = ("CLEAN", "") := by decide

/-- C3: on the Scenario C text the indicator-definition count is 42, but the
classifier returns HITS (not CLEAN as the specification states), because the
alternative `\bmatch` of the hit pattern matches the word "matches" inside
"No matches found.". -/
theorem c3_scenario_eval :
    parse_indicator_defs scenarioC = 42 ∧ classify_stdout scenarioC = ("HITS", "") := by
  constructor
  · decide
  · decide

/-- C2: a second scanner invocation happens if and only if the first
classification is FAILED with the busy-transport reason; at most one retry
ever occurs; SKIPPED and non-busy FAILED classifications never retry; and a
module whose first invocation is busy and whose second classifies CLEAN ends
CLEAN after exactly two invocations.  The same retry law holds for the
all-modules flow. -/
theorem c2_retry_policy (mod : String) (env : ScanEnv) :
    ((scan_module_core mod env).2 = 2 ↔
      ((classify_stdout env.out1).1 = "FAILED" ∧ (classify_stdout env.out1).2 = busyReason))
    ∧ (scan_module_core mod env).2 ≤ 2
    ∧ ((classify_stdout env.out1).1 = "SKIPPED" → (scan_module_core mod env).2 = 1)
    ∧ ((classify_stdout env.out1).1 = "FAILED" → (classify_stdout env.out1).2 ≠ busyReason →
        (scan_module_core mod env).2 = 1)
    ∧ (((classify_stdout env.out1).1 = "FAILED" ∧ (classify_stdout env.out1).2 = busyReason) →
        classify_stdout env.out2 = ("CLEAN", "") →
        (scan_module_core mod env).1.status = "CLEAN" ∧ (scan_module_core mod env).2 = 2)
    ∧ ((scan_all_modules_core env).2 = 2 ↔
      ((classify_stdout env.out1).1 = "FAILED" ∧ (classify_stdout env.out1).2 = busyReason)) := by
  have hkey := is_adb_busy_classify env.out1
  by_cases hb : is_adb_busy (classify_stdout env.out1).1 (classify_stdout env.out1).2 = true
  · have hbe := hkey.mp hb
    refine ⟨?_, ?_, ?_, ?_, ?_, ?_⟩
    · exact ⟨fun _ => hbe, fun _ => by simp [scan_module_core, hb]⟩
    · simp [scan_module_core, hb]
    · intro hs
      rw [hbe.1] at hs
      exact absurd hs (by decide)
    · intro _ hr
      exact absurd hbe.2 hr
    · intro _ hclean
      constructor
      · simp [scan_module_core, hb, hclean]
      · simp [scan_module_core, hb]
    · exact ⟨fun _ => hbe, fun _ => by simp [scan_all_modules_core, hb]⟩
  · have hbe : ¬((classify_stdout env.out1).1 = "FAILED"
        ∧ (classify_stdout env.out1).2 = busyReason) := fun h => hb (hkey.mpr h)
    refine ⟨?_, ?_, ?_, ?_, ?_, ?_⟩
    · simp [scan_module_core, hb, hbe]
    · simp [scan_module_core, hb]
    · intro _
      simp [scan_module_core, hb]
    · intro _ _
      simp [scan_module_core, hb]
    · intro h _
      exact absurd h hbe
    · simp [scan_all_modules_core, hb, hbe]

theorem c2_witness :
    (scan_module_core "sms" envBusyClean).1.status = "CLEAN"
    ∧ (scan_module_core "sms" envBusyClean).2 = 2 :=
  (c2_retry_policy "sms" envBusyClean).2.2.2.2.1 ⟨by decide, by decide⟩ (by decide)

/-- C4 (amended): the boolean returned by the readiness probe is discarded by
the all-modules flow — the outcome and the number of scanner invocations are
independent of it, at least one invocation always happens, and
`adb_ensure_ready` itself does return false whenever the transport binary is
missing. -/
theorem c4_probe_ignored (r1 r2 : Bool) (o1 o2 : List Char) (fs : List ArtifactFile) :
    scan_all_modules_core ⟨r1, o1, o2, fs⟩ = scan_all_modules_core ⟨r2, o1, o2, fs⟩
    ∧ 1 ≤ (scan_all_modules_core ⟨r1, o1, o2, fs⟩).2
    ∧ (∀ probe : Nat → Int, ∀ n : Nat, adb_ensure_ready false probe n = false) := by
  refine ⟨rfl, ?_, fun probe n => rfl⟩
  unfold scan_all_modules_core
  split <;> simp

/-- C4 (counterexample to the claim as stated): with the transport binary
missing the readiness probe returns false, yet the flow still performs one
scanner invocation and records the classification of its captured output
(here CLEAN), not a FAILED outcome without invocation. -/
theorem c4_counterexample :
    adb_ensure_ready false (fun _ => 1) 2 = false
    ∧ envProbeFail.ready = false
    ∧ (scan_all_modules_core envProbeFail).2 = 1
    ∧ (scan_all_modules_core envProbeFail).1.status = "CLEAN" := by
  refine ⟨rfl, rfl, by decide, by decide⟩

theorem processRows_fst (rows : List (List (List Char))) :
    ∀ (tot : Nat) (d : HitDict), (processRows rows tot d).1 = tot + rows.length := by
  induction rows with
  | nil => intro tot d; simp [processRows]
  | cons row rest ih =>
    intro tot d
    rw [processRows, ih]
    simp [List.length_cons]
    omega

/-- C5 (amended): a tabular artifact contributes one hit to the total per data
row (header excluded), independently of category matches; and on the Scenario
D artifact, whose rows contain no literal category keyword, the by-category
map is empty — the keyword patterns match literal tokens such as "domain",
not domain-shaped strings like "suspicious.example.com". -/
theorem c5_tabular_totals (rows : List (List (List Char))) :
    (count_hits_in_files [ArtifactFile.table rows]).1 = rows.length - 1
    ∧ count_hits_in_files [ArtifactFile.table scenarioD] = (3, []) := by
  constructor
  · cases rows with
    | nil => decide
    | cons header dataRows =>
      show (countFile (0, []) (ArtifactFile.table (header :: dataRows))).1 = _
      rw [countFile, processRows_fst]
      simp
  · decide

/-- C5 (counterexample to the claim as stated): on a tabular artifact with a
header plus three data rows, one row being exactly "suspicious.example.com",
the total is 3 but the by-category map does not contain "domain" at all. -/
theorem c5_counterexample :
    (count_hits_in_files [ArtifactFile.table scenarioD]).1 = 3
    ∧ (count_hits_in_files [ArtifactFile.table scenarioD]).2.lookup "domain" = none := by
  constructor
  · decide
  · decide

/-- C6: a JSON artifact increments the total exactly by its count of
structural matched-markers (category keyword matches touch only the
per-category map), and a fallback-type file never increments the total.  The
closed conjuncts witness the asymmetry: a JSON text with a category keyword
but no structural marker contributes 0 to the total yet a category count,
while a lone structural marker contributes 1. -/
theorem c6_total_policy :
    (∀ (text : List Char) (tot : Nat) (d : HitDict),
      (countFile (tot, d) (ArtifactFile.json text)).1 = tot + count_json_markers text)
    ∧ (∀ (text : List Char) (tot : Nat) (d : HitDict),
      (countFile (tot, d) (ArtifactFile.other text)).1 = tot)
    ∧ count_json_markers jsonKeywordOnly = 0
    ∧ (countFile (0, []) (ArtifactFile.json jsonKeywordOnly)).2 = [("domain", 1)]
    ∧ count_json_markers jsonMarkerOnly = 1 := by
  refine ⟨fun _ _ _ => rfl, fun _ _ _ => rfl, by decide, by decide, by decide⟩

theorem mem_dSet {k : String} {v : Nat} :
    ∀ {d : HitDict} {kv : String × Nat}, kv ∈ dSet d k v → kv = (k, v) ∨ kv ∈ d := by
  intro d
  induction d with
  | nil =>
    intro kv h
    simp [dSet] at h
    exact Or.inl h
  | cons e rest ih =>
    intro kv h
    rw [dSet] at h
    split at h
    · rcases List.mem_cons.mp h with h | h
      · exact Or.inl h
      · exact Or.inr (List.mem_cons_of_mem e h)
    · rcases List.mem_cons.mp h with h | h
      · exact Or.inr (List.mem_cons.mpr (Or.inl h))
      · rcases ih h with h | h
        · exact Or.inl h
        · exact Or.inr (List.mem_cons_of_mem e h)

/-- Invariant of the per-category dictionary: every stored key is one of the
six `HIT_KEYWORDS` categories and every stored count is at least 1. -/
def dInv (d : HitDict) : Prop :=
  ∀ kv ∈ d, kv.1 ∈ HIT_KEYWORDS.map Prod.fst ∧ 1 ≤ kv.2

theorem dInv_dSet {d : HitDict} {k : String} {v : Nat}
    (hd : dInv d) (hk : k ∈ HIT_KEYWORDS.map Prod.fst) (hv : 1 ≤ v) :
    dInv (dSet d k v) := by
  intro kv hkv
  rcases mem_dSet hkv with h | h
  · rw [h]
    exact ⟨hk, hv⟩
  · exact hd kv h

theorem dInv_addKeywordCounts (text : List Char) :
    ∀ kws : List (String × RxPat), (∀ kp ∈ kws, kp.1 ∈ HIT_KEYWORDS.map Prod.fst) →
      ∀ d : HitDict, dInv d → dInv (addKeywordCounts text kws d) := by
  intro kws
  induction kws with
  | nil =>
    intro _ d hd
    simpa [addKeywordCounts] using hd
  | cons kp rest ih =>
    intro hmem d hd
    obtain ⟨k, pat⟩ := kp
    rw [addKeywordCounts]
    refine ih (fun x hx => hmem x (List.mem_cons_of_mem _ hx)) _ ?_
    split
    · refine dInv_dSet hd (hmem (k, pat) (List.mem_cons_self _ _)) ?_
      have hc : 1 ≤ countPat pat (lowerStr text) := by omega
      omega
    · exact hd

theorem dInv_addRowSearch (rowText : List Char) :
    ∀ kws : List (String × RxPat), (∀ kp ∈ kws, kp.1 ∈ HIT_KEYWORDS.map Prod.fst) →
      ∀ d : HitDict, dInv d → dInv (addRowSearch rowText kws d) := by
  intro kws
  induction kws with
  | nil =>
    intro _ d hd
    simpa [addRowSearch] using hd
  | cons kp rest ih =>
    intro hmem d hd
    obtain ⟨k, pat⟩ := kp
    rw [addRowSearch]
    refine ih (fun x hx => hmem x (List.mem_cons_of_mem _ hx)) _ ?_
    split
    · exact dInv_dSet hd (hmem (k, pat) (List.mem_cons_self _ _)) (by omega)
    · exact hd

theorem dInv_processRows (rows : List (List (List Char))) :
    ∀ (tot : Nat) (d : HitDict), dInv d → dInv (processRows rows tot d).2 := by
  induction rows with
  | nil => intro tot d hd; exact hd
  | cons row rest ih =>
    intro tot d hd
    rw [processRows]
    exact ih _ _ (dInv_addRowSearch (rowJoin row) HIT_KEYWORDS
      (fun kp hk => List.mem_map_of_mem Prod.fst hk) d hd)

theorem dInv_countFile (f : ArtifactFile) (acc : Nat × HitDict) (hd : dInv acc.2) :
    dInv (countFile acc f).2 := by
  cases f with
  | json text =>
    exact dInv_addKeywordCounts text HIT_KEYWORDS
      (fun kp hk => List.mem_map_of_mem Prod.fst hk) acc.2 hd
  | table rows =>
    cases rows with
    | nil => exact hd
    | cons header dataRows => exact dInv_processRows dataRows acc.1 acc.2 hd
  | other text =>
    exact dInv_addKeywordCounts text HIT_KEYWORDS
      (fun kp hk => List.mem_map_of_mem Prod.fst hk) acc.2 hd

theorem dInv_foldl (files : List ArtifactFile) :
    ∀ acc : Nat × HitDict, dInv acc.2 → dInv (List.foldl countFile acc files).2 := by
  induction files with
  | nil => intro acc hd; exact hd
  | cons f fs ih =>
    intro acc hd
    rw [List.foldl_cons]
    exact ih _ (dInv_countFile f acc hd)

/-- C10: for every list of artifact files the aggregator's total is a
non-negative count, every key of the by-category map is one of the six fixed
categories, and every stored count is at least 1 (zero counts are never
stored). -/
theorem c10_aggregator_invariant (files : List ArtifactFile) :
    0 ≤ (count_hits_in_files files).1
    ∧ ∀ kv, kv ∈ (count_hits_in_files files).2 →
        kv.1 ∈ HIT_KEYWORDS.map Prod.fst ∧ 1 ≤ kv.2 := by
  refine ⟨Nat.zero_le _, ?_⟩
  exact dInv_foldl files (0, []) (by intro kv hkv; simp at hkv)

theorem c10_witness :
    (("domain", 1) : String × Nat).1 ∈ HIT_KEYWORDS.map Prod.fst
    ∧ 1 ≤ (("domain", 1) : String × Nat).2 :=
  (c10_aggregator_invariant [ArtifactFile.other "domain".toList]).2 ("domain", 1) (by decide)

/-- C7: `get_device_props` evaluated at its failure point and under the
claim's intended conditions.  A property read that succeeds (exit code 0)
with non-empty, all-whitespace output makes the source raise `IndexError`
(the `Except.error` below), aborting the run before report assembly — against
the claim.  When reads fail (non-zero exit code) the map does keep exactly
the five fixed keys, every value the empty string, and no error is raised. -/
theorem c7_device_props_eval :
    get_device_props true (fun _ => (0, " \n".toList)) = Except.error ()
    ∧ get_device_props true (fun _ => (1, [])) =
        Except.ok (PROP_KEYS.map (fun k => (k, ([] : List Char))))
    ∧ (PROP_KEYS.map (fun k => (k, ([] : List Char)))).map Prod.fst = PROP_KEYS
    ∧ PROP_KEYS.length = 5 := by
  refine ⟨rfl, rfl, rfl, rfl⟩
